import Mathlib

/-!
Formal model of `src/jules-scratch/verification/verify_header.py`.

The script is a straight-line Playwright program:

  def run(playwright):
      browser = playwright.chromium.launch()
      context = browser.new_context(viewport={'width': 375, 'height': 667})
      page = context.new_page()
      page.goto("http://127.0.0.1:5173/")
      page.screenshot(path="jules-scratch/verification/verification.png")
      browser.close()

  with sync_playwright() as playwright:
      run(playwright)

We embed it as a trace semantics.  Each call into the automation framework
is an operation `Op`; the environment `World` records, for each call, whether
that call succeeds or raises.  An execution `Exec` is the list of calls that
completed, together with the operation whose call raised, if any.  A raised
exception propagates: once `exn` is set, no further operation is performed
inside `run` (Python exception semantics; the script has no try/except).
-/

/-- Viewport dimensions passed to `new_context`. -/
structure Viewport where
  width : Nat
  height : Nat
  deriving DecidableEq

/-- The operations the script can perform, one per framework call,
carrying the arguments the source passes. -/
inductive Op where
  | launch
  | newContext (vp : Viewport)
  | newPage
  | goto (url : String)
  | screenshot (path : String)
  | closeBrowser
  | pwStart
  | pwStop
  deriving DecidableEq

/-- The environment: for each framework call the script makes, whether that
call succeeds (`true`) or raises (`false`).  This is the only source of
nondeterminism in the script. -/
structure World where
  launchOk : Bool
  newContextOk : Bool
  newPageOk : Bool
  gotoOk : Bool
  screenshotOk : Bool
  closeOk : Bool
  deriving DecidableEq, Fintype

/-- The observable outcome of an execution: the calls that completed, in
order, and the operation whose call raised (if any). -/
structure Exec where
  trace : List Op
  exn : Option Op
  deriving DecidableEq

/-- One framework call: if an exception is already propagating, nothing
happens; otherwise the call completes (appending to the trace) or raises
(recording the failed operation). -/
def call (e : Exec) (ok : Bool) (op : Op) : Exec :=
  match e.exn with
  | some _ => e
  | none => if ok then ⟨e.trace ++ [op], none⟩ else ⟨e.trace, some op⟩

/-- The body of `run(playwright)`, line by line. -/
def run (w : World) : Exec :=
  let e : Exec := ⟨[], none⟩
  let e := call e w.launchOk Op.launch
  let e := call e w.newContextOk (Op.newContext ⟨375, 667⟩)
  let e := call e w.newPageOk Op.newPage
  let e := call e w.gotoOk (Op.goto "http://127.0.0.1:5173/")
  let e := call e w.screenshotOk (Op.screenshot "jules-scratch/verification/verification.png")
  let e := call e w.closeOk Op.closeBrowser
  e

/-- The whole script: the `with sync_playwright()` block starts the driver,
calls `run`, and stops the driver on exit of the `with` block even when an
exception is propagating (Python context-manager semantics), after which the
exception, if any, terminates the process.  The script never reads `argv`
or the environment, so the embedding takes them as parameters its body does
not consult. -/
def script_main (argv : List String) (env : List (String × String)) (w : World) : Exec :=
  let e := run w
  ⟨Op.pwStart :: (e.trace ++ [Op.pwStop]), e.exn⟩

/-- The full operation sequence of the straight-line body of `run`. -/
def script : List Op :=
  [Op.launch, Op.newContext ⟨375, 667⟩, Op.newPage,
   Op.goto "http://127.0.0.1:5173/",
   Op.screenshot "jules-scratch/verification/verification.png",
   Op.closeBrowser]

/-- The first framework call that raises, given the environment: the
exception the script terminates with. -/
def firstFail (w : World) : Option Op :=
  if !w.launchOk then some Op.launch
  else if !w.newContextOk then some (Op.newContext ⟨375, 667⟩)
  else if !w.newPageOk then some Op.newPage
  else if !w.gotoOk then some (Op.goto "http://127.0.0.1:5173/")
  else if !w.screenshotOk then some (Op.screenshot "jules-scratch/verification/verification.png")
  else if !w.closeOk then some Op.closeBrowser
  else none

/-- The files an execution wrote: the path of every completed screenshot
call (the script's only file write). -/
def filesWritten (e : Exec) : List String :=
  e.trace.filterMap fun op =>
    match op with
    | Op.screenshot p => some p
    | _ => none

/-- Whether an operation is a context creation. -/
def isNewContext : Op → Bool
  | Op.newContext _ => true
  | _ => false

/-- Whether an operation is a page creation. -/
def isNewPage : Op → Bool
  | Op.newPage => true
  | _ => false

/-- Whether an operation is a navigation. -/
def isGoto : Op → Bool
  | Op.goto _ => true
  | _ => false

/-- The environment in which every framework call succeeds. -/
def wOk : World := ⟨true, true, true, true, true, true⟩

/-- The environment in which navigation raises (e.g. the dev server at
127.0.0.1:5173 is unreachable) and every other call would succeed. -/
def wGotoFail : World := ⟨true, true, true, false, true, true⟩

/-- The environment in which the browser launch itself raises. -/
def wLaunchFail : World := ⟨false, true, true, true, true, true⟩

/-- Every execution of `run` performs a prefix of the straight-line
sequence, in order. -/
theorem run_trace_le_script (w : World) : (run w).trace <+: script := by
  revert w; decide

example : run wOk = ⟨script, none⟩ := by decide
example : run wGotoFail = ⟨[Op.launch, Op.newContext ⟨375, 667⟩, Op.newPage],
    some (Op.goto "http://127.0.0.1:5173/")⟩ := by decide

/-- Claim C1 as stated ("for every execution of run, the script performs
exactly this sequence") is false: in the execution where navigation raises
(dev server unreachable), `run` performs only the first three operations,
not the full sequence. -/
theorem C1_counterexample : ¬ ∀ w : World, (run w).trace = script := by
  intro h
  exact absurd (h wGotoFail) (by decide)

/-- Claim C1, amended: every execution of `run` performs a prefix of the
sequence launch, new-context (375×667), new-page, goto the URL, screenshot
to the fixed path, close browser — in this order, with no other operation
ever performed — and the execution in which no call raises performs exactly
the full sequence. -/
theorem C1_run_sequence (w : World) :
    (run w).trace <+: script ∧ ((run w).exn = none → (run w).trace = script) := by
  revert w; decide

/-- Witness for C1: in the all-success environment `run` performs exactly
the full sequence. -/
theorem C1_witness : (run wOk).trace = script :=
  (C1_run_sequence wOk).2 (by decide)

/-- Claim C2: a failing call surfaces as an unhandled exception: the raised
exception is exactly the first framework call that fails (no translation,
no recovery), and once it is raised the script performs nothing further —
the completed trace followed by the failed call is still a prefix of the
straight-line sequence, and the failed call is never in the completed trace
(no retry). -/
theorem C2_failure_propagates (w : World) :
    (run w).exn = firstFail w ∧
    ((run w).exn ≠ none →
      (run w).trace <+: script ∧ Op.closeBrowser ∉ (run w).trace) := by
  revert w; decide

/-- Witness for C2: with the dev server unreachable, the exception is
exactly the failed navigation and the browser close was never reached. -/
theorem C2_witness :
    (run wGotoFail).exn = firstFail wGotoFail ∧
    Op.closeBrowser ∉ (run wGotoFail).trace :=
  ⟨(C2_failure_propagates wGotoFail).1,
   ((C2_failure_propagates wGotoFail).2 (by decide)).2⟩

/-- Claim C3: in every execution, any context the script creates has
viewport exactly 375×667 and any navigation it performs targets exactly the
hardcoded local dev-server URL; `run` has no parameter that could change
either value, so no input can. -/
theorem C3_hardcoded_viewport_url (w : World) (vp : Viewport) (url : String) :
    (Op.newContext vp ∈ (run w).trace → vp = ⟨375, 667⟩) ∧
    (Op.goto url ∈ (run w).trace → url = "http://127.0.0.1:5173/") := by
  constructor
  · intro h
    have hs := (run_trace_le_script w).subset h
    simp [script] at hs
    exact hs
  · intro h
    have hs := (run_trace_le_script w).subset h
    simp [script] at hs
    exact hs

/-- Witness for C3: the context created in the all-success execution has
viewport 375×667. -/
theorem C3_witness : (⟨375, 667⟩ : Viewport) = ⟨375, 667⟩ :=
  (C3_hardcoded_viewport_url wOk ⟨375, 667⟩ "http://127.0.0.1:5173/").1 (by decide)

/-- In every execution of `run`, the only file that can have been written
is the fixed screenshot path. -/
theorem filesWritten_run_subset (w : World) :
    filesWritten (run w) ⊆ ["jules-scratch/verification/verification.png"] := by
  revert w; decide

/-- Claim C4: the script has no configuration surface.  Its behaviour is
identical for any command-line arguments and any process environment (the
body never consults them); every navigation targets the fixed loopback
address and port; and the only file ever written is the image at the fixed
relative path. -/
theorem C4_no_config (argv argv2 : List String) (env env2 : List (String × String))
    (w : World) :
    script_main argv env w = script_main argv2 env2 w ∧
    filesWritten (script_main argv env w) ⊆ ["jules-scratch/verification/verification.png"] ∧
    ∀ url, Op.goto url ∈ (script_main argv env w).trace → url = "http://127.0.0.1:5173/" := by
  refine ⟨rfl, ?_, ?_⟩
  · have h : filesWritten (script_main argv env w) = filesWritten (run w) := by
      simp [script_main, filesWritten]
    rw [h]
    exact filesWritten_run_subset w
  · intro url h
    have h2 : Op.goto url ∈ (run w).trace := by
      simp [script_main] at h
      exact h
    have hs := (run_trace_le_script w).subset h2
    simp [script] at hs
    exact hs

/-- Witness for C4: at a concrete pair of distinct argv/env values and the
all-success environment, the executions coincide, the file set is the fixed
path, and the navigation target is the fixed URL. -/
theorem C4_witness :
    script_main [] [] wOk = script_main ["--flag"] [("HOME", "/tmp")] wOk ∧
    filesWritten (script_main [] [] wOk) ⊆ ["jules-scratch/verification/verification.png"] ∧
    "http://127.0.0.1:5173/" = "http://127.0.0.1:5173/" :=
  ⟨(C4_no_config [] ["--flag"] [] [("HOME", "/tmp")] wOk).1,
   (C4_no_config [] ["--flag"] [] [("HOME", "/tmp")] wOk).2.1,
   (C4_no_config [] ["--flag"] [] [("HOME", "/tmp")] wOk).2.2
     "http://127.0.0.1:5173/" (by decide)⟩

/-- Claim C5 as stated ("in every execution ... explicitly released at the
end") is false: in the execution where navigation raises, the browser is
acquired but `browser.close()` is never executed, so the last completed
operation is not the release. -/
theorem C5_counterexample :
    ¬ ∀ w : World, (run w).trace.head? = some Op.launch ∧
      (run w).trace.getLast? = some Op.closeBrowser := by
  intro h
  exact absurd (h wGotoFail).2 (by decide)

/-- Claim C5, amended: the browser is acquired at the start of the code
path — whenever any operation completes, the first one is the launch — and
in every execution that completes without an exception the last operation
is the explicit `browser.close()`; when an exception is raised the explicit
release is skipped. -/
theorem C5_scoped_browser (w : World) :
    ((run w).trace ≠ [] → (run w).trace.head? = some Op.launch) ∧
    ((run w).exn = none →
      (run w).trace.head? = some Op.launch ∧
      (run w).trace.getLast? = some Op.closeBrowser) := by
  revert w; decide

/-- Witness for C5: in the all-success environment the first operation is
the launch and the last is the explicit close. -/
theorem C5_witness :
    (run wOk).trace.head? = some Op.launch ∧
    (run wOk).trace.getLast? = some Op.closeBrowser :=
  (C5_scoped_browser wOk).2 (by decide)

/-- Claim C6 as stated ("in every execution, exactly one browser context is
created") is false: in the execution where the browser launch raises, no
context is ever created. -/
theorem C6_counterexample :
    ¬ ∀ w : World, (run w).trace.countP isNewContext = 1 := by
  intro h
  exact absurd (h wLaunchFail) (by decide)

/-- Claim C6, amended: in every execution at most one browser context is
created — exactly one when the script completes without an exception — and
no context is ever reused for a second page or a second navigation: at most
one page is created and at most one navigation is performed. -/
theorem C6_single_context (w : World) :
    (run w).trace.countP isNewContext ≤ 1 ∧
    ((run w).exn = none → (run w).trace.countP isNewContext = 1) ∧
    (run w).trace.countP isNewPage ≤ 1 ∧
    (run w).trace.countP isGoto ≤ 1 := by
  revert w; decide

/-- Witness for C6: in the all-success environment exactly one context is
created. -/
theorem C6_witness : (run wOk).trace.countP isNewContext = 1 :=
  (C6_single_context wOk).2.1 (by decide)

/-- Claim C7: if the navigation raises (e.g. the dev server is
unreachable), the exception propagates and the screenshot call is never
reached, so the execution writes no file at all rather than silently
producing one. -/
theorem C7_no_silent_screenshot (w : World)
    (h : (run w).exn = some (Op.goto "http://127.0.0.1:5173/")) :
    filesWritten (run w) = [] ∧ (run w).exn.isSome := by
  revert h; revert w; decide

/-- Witness for C7: with the dev server unreachable the navigation raises
and no file is written. -/
theorem C7_witness : filesWritten (run wGotoFail) = [] ∧ (run wGotoFail).exn.isSome :=
  C7_no_silent_screenshot wGotoFail (by decide)

/-- Claim C8: whenever a screenshot is written, the execution created
exactly one browsing context, that context has viewport 375×667, and it was
created before the screenshot (the trace keeps the straight-line order).
The pixel dimensions of the resulting image are the automation framework's
guarantee for that viewport and are outside this model. -/
theorem C8_screenshot_viewport (w : World)
    (h : filesWritten (run w) ≠ []) :
    Op.newContext ⟨375, 667⟩ ∈ (run w).trace ∧
    (run w).trace.countP isNewContext = 1 ∧
    (run w).trace.take 2 = [Op.launch, Op.newContext ⟨375, 667⟩] := by
  revert h; revert w; decide

/-- Witness for C8: the all-success execution writes the screenshot and its
unique context has viewport 375×667. -/
theorem C8_witness :
    Op.newContext ⟨375, 667⟩ ∈ (run wOk).trace ∧
    (run wOk).trace.countP isNewContext = 1 ∧
    (run wOk).trace.take 2 = [Op.launch, Op.newContext ⟨375, 667⟩] :=
  C8_screenshot_viewport wOk (by decide)

/-- An execution of `run` in which no call raises is the full straight-line
execution. -/
theorem run_exn_none_eq (w : World) (h : (run w).exn = none) :
    run w = ⟨script, none⟩ := by
  revert h; revert w; decide

/-- Claim C9: the script is deterministic: any two executions in which no
call raises are identical — same operations, same arguments, same order —
and each writes exactly the one file at the fixed path, so with static page
content the two screenshots are the same artifact of the same capture. -/
theorem C9_deterministic (w w2 : World)
    (h : (run w).exn = none) (h2 : (run w2).exn = none) :
    run w = run w2 ∧
    filesWritten (run w) = ["jules-scratch/verification/verification.png"] := by
  rw [run_exn_none_eq w h, run_exn_none_eq w2 h2]
  exact ⟨rfl, by decide⟩

/-- Witness for C9: two all-success executions coincide and write the fixed
path. -/
theorem C9_witness :
    run wOk = run wOk ∧
    filesWritten (run wOk) = ["jules-scratch/verification/verification.png"] :=
  C9_deterministic wOk wOk (by decide) (by decide)

/-- Claim C10: the explicit `browser.close()` call is made exactly when
every preceding step succeeds — it completes or raises only in that case,
and whenever any earlier call raises, `closeBrowser` never appears in the
completed trace; the driver shutdown of the enclosing `with sync_playwright()`
block still runs in every execution, exception or not. -/
theorem C10_close_skipped_on_failure (w : World) :
    ((Op.closeBrowser ∈ (run w).trace ∨ (run w).exn = some Op.closeBrowser) ↔
      (w.launchOk ∧ w.newContextOk ∧ w.newPageOk ∧ w.gotoOk ∧ w.screenshotOk)) ∧
    ((run w).exn.isSome ∧ (run w).exn ≠ some Op.closeBrowser →
      Op.closeBrowser ∉ (run w).trace) ∧
    Op.pwStop ∈ (script_main [] [] w).trace := by
  revert w; decide

/-- Witness for C10: with the dev server unreachable the close call is
skipped while the driver shutdown still runs. -/
theorem C10_witness : Op.closeBrowser ∉ (run wGotoFail).trace :=
  (C10_close_skipped_on_failure wGotoFail).2.1 (by decide)
